import Mathlib

/-!
Verification of the model-storage subsystem demonstrated by the PyEMMA
storage tutorial notebook (`src/methods/storage/storage.ipynb`).  The
notebook exercises `save`, `load` and `list_models` of a keyed, versioned
object store; the engine itself is not part of the repository, so the
definitions below are modelled from the specification, with the concrete
behaviour recorded in the notebook's outputs (default model name, the
exact conflict error message, the version string) taken as authoritative.
-/

set_option maxRecDepth 40000

namespace PyemmaStorage

/-- Modelled from the spec: element types of typed numeric arrays.  The
real engine stores numpy dtypes; each dtype fixes an element byte width,
and float elements are modelled by their raw bit patterns (the spec
requires bit-identical round-trips, not arithmetic on the values). -/
inductive Dtype : Type where
  | int32
  | int64
  | float32
  | float64
deriving DecidableEq

/-- Byte width of one array element of the given dtype. -/
def Dtype.width : Dtype → Nat
  | .int32 => 4
  | .float32 => 4
  | .int64 => 8
  | .float64 => 8

/-- Every dtype has a positive element width. -/
theorem Dtype.width_pos (d : Dtype) : 0 < d.width := by
  cases d <;> simp [Dtype.width]

/-- Modelled from the spec: an in-memory typed numeric array with explicit
dtype, shape and flat element data (element bit patterns). -/
structure NDArray where
  dtype : Dtype
  shape : List Nat
  data : List Nat
deriving DecidableEq

/-- Well-formedness of an array: the flat data has exactly as many elements
as the shape demands and every element fits into the dtype's width. -/
def NDArray.wfb (a : NDArray) : Bool :=
  (a.data.length == a.shape.foldr (fun x y => x * y) 1) &&
    a.data.all (fun x => decide (x < 256 ^ a.dtype.width))

/-- Modelled from the spec: little-endian byte encoding of one element bit
pattern into `w` bytes. -/
def natToBytesLE : Nat → Nat → List Nat
  | 0, _ => []
  | w + 1, n => n % 256 :: natToBytesLE w (n / 256)

/-- Decode a little-endian byte list back into one natural number. -/
def bytesToNatLE : List Nat → Nat
  | [] => 0
  | b :: bs => b + 256 * bytesToNatLE bs

/-- Modelled from the spec: the flat byte layout of all array elements. -/
def encodeElems (w : Nat) : List Nat → List Nat
  | [] => []
  | x :: xs => natToBytesLE w x ++ encodeElems w xs

/-- Modelled from the spec: decode exactly `k` elements of width `w` from a
byte stream, failing on any length mismatch. -/
def decodeElems (w : Nat) : Nat → List Nat → Option (List Nat)
  | 0, bs => if bs.isEmpty then some [] else none
  | k + 1, bs =>
    if w ≤ bs.length then
      match decodeElems w k (bs.drop w) with
      | some rest => some (bytesToNatLE (bs.take w) :: rest)
      | none => none
    else none

theorem natToBytesLE_length (w : Nat) : ∀ n, (natToBytesLE w n).length = w := by
  induction w with
  | zero => intro n; rfl
  | succ k ih => intro n; simp [natToBytesLE, ih (n / 256)]

theorem bytesToNatLE_natToBytesLE (w : Nat) :
    ∀ n, n < 256 ^ w → bytesToNatLE (natToBytesLE w n) = n := by
  induction w with
  | zero => intro n h; simp at h; simp [natToBytesLE, bytesToNatLE, h]
  | succ k ih =>
    intro n h
    have hdiv : n / 256 < 256 ^ k := by
      rw [Nat.div_lt_iff_lt_mul (by norm_num)]
      calc n < 256 ^ (k + 1) := h
        _ = 256 ^ k * 256 := by ring
    simp only [natToBytesLE, bytesToNatLE, ih (n / 256) hdiv]
    omega

theorem encodeElems_cons (w x : Nat) (xs : List Nat) :
    encodeElems w (x :: xs) = natToBytesLE w x ++ encodeElems w xs := rfl

theorem decodeElems_encodeElems (w : Nat) :
    ∀ l : List Nat, (∀ x ∈ l, x < 256 ^ w) →
      decodeElems w l.length (encodeElems w l) = some l := by
  intro l
  induction l with
  | nil => intro _; rfl
  | cons x xs ih =>
    intro hmem
    have hx : x < 256 ^ w := hmem x (List.mem_cons_self x xs)
    have hxs : ∀ y ∈ xs, y < 256 ^ w := fun y hy => hmem y (List.mem_cons_of_mem x hy)
    have hlen : (natToBytesLE w x).length = w := natToBytesLE_length w x
    have hlen2 : w ≤ (encodeElems w (x :: xs)).length := by
      rw [encodeElems_cons, List.length_append, hlen]
      omega
    have hdrop : (natToBytesLE w x ++ encodeElems w xs).drop w = encodeElems w xs := by
      rw [List.drop_append_of_le_length (by omega)]
      simp [hlen]
    have htake : (natToBytesLE w x ++ encodeElems w xs).take w = natToBytesLE w x := by
      rw [List.take_append_of_le_length (by omega)]
      simp [hlen]
    simp only [List.length_cons, decodeElems, encodeElems_cons] at *
    rw [if_pos (by rw [List.length_append, hlen]; omega), hdrop, ih hxs, htake,
      bytesToNatLE_natToBytesLE w x hx]

/-- Modelled from the spec: attribute values of a saved object — primitives,
strings, or typed numeric arrays.  (Nested sub-records are not needed by any
of the stated properties and are omitted.) -/
inductive Value : Type where
  | prim : Int → Value
  | str : String → Value
  | arr : NDArray → Value
deriving DecidableEq

/-- Modelled from the spec: one declared attribute of an object is either a
serializable value or an unserializable runtime resource (an open file
handle, a callback function), recorded with a description of its kind. -/
inductive Attr : Type where
  | val : Value → Attr
  | unserializable : String → Attr
deriving DecidableEq

/-- Modelled from the spec: an estimator/model object — a fully-qualified
type tag, its declared configuration attributes in declaration order, and an
optional reference to the upstream producer (`data_producer` in PyEMMA). -/
inductive Obj : Type where
  | mk : String → List (String × Attr) → Option Obj → Obj

/-- The fully-qualified class identity of an object. -/
def Obj.typeTag : Obj → String
  | .mk t _ _ => t

/-- The declared configuration attributes of an object. -/
def Obj.attrs : Obj → List (String × Attr)
  | .mk _ a _ => a

/-- The upstream producer reference of an object. -/
def Obj.data_producer : Obj → Option Obj
  | .mk _ _ p => p

/-- The object with its producer reference dropped (what a save without the
streaming chain captures). -/
def Obj.core (O : Obj) : Obj := .mk O.typeTag O.attrs none

/-- Replace the producer reference of an object. -/
def Obj.withProducer : Obj → Option Obj → Obj
  | .mk t a _, p => .mk t a p

@[simp] theorem Obj.typeTag_mk (t : String) (a : List (String × Attr)) (p : Option Obj) :
    (Obj.mk t a p).typeTag = t := rfl

@[simp] theorem Obj.attrs_mk (t : String) (a : List (String × Attr)) (p : Option Obj) :
    (Obj.mk t a p).attrs = a := rfl

@[simp] theorem Obj.data_producer_mk (t : String) (a : List (String × Attr)) (p : Option Obj) :
    (Obj.mk t a p).data_producer = p := rfl

/-- A serializable attribute: not a runtime resource, and any array in it is
well-formed. -/
def Attr.okb : Attr → Bool
  | .val (.arr a) => a.wfb
  | .val _ => true
  | .unserializable _ => false

/-- All declared attributes of an attribute list are serializable. -/
def wfAttrsb (l : List (String × Attr)) : Bool :=
  l.all (fun p => p.2.okb)

/-- Modelled from the spec: the stored encoding of one attribute value;
numeric arrays carry explicit dtype, shape and their byte layout. -/
inductive EncValue : Type where
  | prim : Int → EncValue
  | str : String → EncValue
  | arr : Dtype → List Nat → List Nat → EncValue
deriving DecidableEq

/-- Modelled from the spec: the error taxonomy of the storage core. -/
inductive StoreError : Type where
  | conflictError : String → StoreError
  | notFoundError : String → String → StoreError
  | notSerializableError : String → StoreError
  | unknownTypeError : String → StoreError
  | incompatibleVersionError : Nat → Nat → StoreError
  | migrationRequiredError : String → Nat → StoreError
  | brokenChainError : String → StoreError
  | invalidEncodingError : StoreError
deriving DecidableEq

/-- The notebook catches the save-conflict failure with a plain
`except RuntimeError` handler and the handler runs: the conflict error is
raised as a Python `RuntimeError`.  The other storage errors are not
asserted to be runtime errors by the observed material. -/
def StoreError.catchableAsRuntimeError : StoreError → Bool
  | .conflictError _ => true
  | _ => false

/-- The human-readable message carried by an error. -/
def StoreError.message : StoreError → String
  | .conflictError m => m
  | .notFoundError n f => "model " ++ n ++ " not found in file " ++ f
  | .notSerializableError a => "could not serialize attribute " ++ a
  | .unknownTypeError t => "unknown type " ++ t
  | .incompatibleVersionError found supported =>
      "payload version " ++ toString found ++ " exceeds supported version " ++
        toString supported
  | .migrationRequiredError t v => "migration required for " ++ t ++ " from version " ++ toString v
  | .brokenChainError n => "chain ancestor group " ++ n ++ " is missing"
  | .invalidEncodingError => "invalid payload encoding"

/-- Modelled from the spec: encode one attribute value; arrays are written
with explicit dtype, shape and little-endian element bytes. -/
def serializeValue : Value → EncValue
  | .prim i => .prim i
  | .str s => .str s
  | .arr a => .arr a.dtype a.shape (encodeElems a.dtype.width a.data)

/-- Modelled from the spec: decode one stored attribute value back into
memory, using the recorded dtype and shape. -/
def deserializeValue : EncValue → Option Value
  | .prim i => some (.prim i)
  | .str s => some (.str s)
  | .arr d sh bs =>
    match decodeElems d.width (sh.foldr (fun x y => x * y) 1) bs with
    | some data => some (.arr ⟨d, sh, data⟩)
    | none => none

/-- Modelled from the spec: walk the declared attributes in order, encoding
each; the first unserializable attribute aborts the walk with
`NotSerializableError` naming it. -/
def serializeAttrs : List (String × Attr) → Except StoreError (List (String × EncValue))
  | [] => .ok []
  | (n, .unserializable _) :: _ => .error (.notSerializableError n)
  | (n, .val v) :: rest =>
    match serializeAttrs rest with
    | .ok es => .ok ((n, serializeValue v) :: es)
    | .error e => .error e

/-- Decode a stored attribute list back into declared attributes. -/
def deserializeAttrs : List (String × EncValue) → Option (List (String × Attr))
  | [] => some []
  | (n, e) :: rest =>
    match deserializeValue e, deserializeAttrs rest with
    | some v, some l => some ((n, .val v) :: l)
    | _, _ => none

theorem serializeValue_roundtrip (v : Value) (h : Attr.okb (.val v) = true) :
    deserializeValue (serializeValue v) = some v := by
  cases v with
  | prim i => rfl
  | str s => rfl
  | arr a =>
    obtain ⟨d, sh, data⟩ := a
    simp only [Attr.okb, NDArray.wfb, Bool.and_eq_true, beq_iff_eq, List.all_eq_true,
      decide_eq_true_eq] at h
    obtain ⟨hlen, hmem⟩ := h
    simp only [serializeValue, deserializeValue]
    rw [show sh.foldr (fun x y => x * y) 1 = data.length from hlen.symm]
    rw [decodeElems_encodeElems d.width data hmem]

theorem serializeAttrs_roundtrip (l : List (String × Attr)) (h : wfAttrsb l = true) :
    ∃ es, serializeAttrs l = .ok es ∧ deserializeAttrs es = some l := by
  induction l with
  | nil => exact ⟨[], rfl, rfl⟩
  | cons p rest ih =>
    obtain ⟨n, a⟩ := p
    simp only [wfAttrsb, List.all_cons, Bool.and_eq_true] at h
    obtain ⟨hhead, htail⟩ := h
    obtain ⟨es, hs, hd⟩ := ih htail
    cases a with
    | unserializable k => simp [Attr.okb] at hhead
    | val v =>
      refine ⟨(n, serializeValue v) :: es, ?_, ?_⟩
      · simp only [serializeAttrs, hs]
      · simp only [deserializeAttrs, serializeValue_roundtrip v hhead, hd]

/-- Modelled from the spec: the Payload — the reconstructible state of one
object: type tag, the writer's `format_version`, the producing software's
version string, the encoded attributes, and, for a chain link, the group
name of the upstream producer. -/
structure Payload where
  typeTag : String
  format_version : Nat
  software_version : String
  attrs : List (String × EncValue)
  chainRef : Option String
deriving DecidableEq

/-- The producing PyEMMA version string recorded by the notebook's saves. -/
def PYEMMA_VERSION : String := "2.4+903.gd2fd40c3.dirty"

/-- Modelled from the spec: the highest Payload `format_version` the running
deserializer supports. -/
def MAX_FORMAT_VERSION : Nat := 1

/-- Modelled from the spec: serialize one object's own state into a Payload;
the writer records its format version and the software version. -/
def serializeObj (writerVersion : Nat) (chainRef : Option String) (O : Obj) :
    Except StoreError Payload :=
  match serializeAttrs O.attrs with
  | .error e => .error e
  | .ok es => .ok ⟨O.typeTag, writerVersion, PYEMMA_VERSION, es, chainRef⟩

/-- Modelled from the spec: deserialize a Payload, enforcing forward-only
compatibility: a recorded `format_version` above the running maximum fails
fast with `IncompatibleVersionError`; otherwise the attributes are decoded
and the object rebuilt (with no producer attached yet). -/
def deserializePayload (maxVer : Nat) (p : Payload) : Except StoreError Obj :=
  if maxVer < p.format_version then
    .error (.incompatibleVersionError p.format_version maxVer)
  else
    match deserializeAttrs p.attrs with
    | some l => .ok (.mk p.typeTag l none)
    | none => .error .invalidEncodingError

/-- Character codes of a string, for digesting. -/
def strBytes (s : String) : List Nat := s.toList.map Char.toNat

/-- A flat numeric rendering of an integer, for digesting. -/
def intBytes (i : Int) : List Nat := [if i < 0 then 1 else 0, i.natAbs]

/-- A flat numeric rendering of one encoded attribute value. -/
def encValueBytes : EncValue → List Nat
  | .prim i => 0 :: intBytes i
  | .str s => 1 :: strBytes s
  | .arr d sh bs => 2 :: d.width :: (sh.length :: sh) ++ (bs.length :: bs)

/-- A flat numeric rendering of one encoded attribute. -/
def attrBytes (p : String × EncValue) : List Nat :=
  strBytes p.1 ++ encValueBytes p.2

/-- Modelled from the spec: the serialized byte stream of a Payload.  The
digest is computed over exactly these bytes — never over group metadata. -/
def payloadBytes (p : Payload) : List Nat :=
  strBytes p.typeTag ++ p.format_version :: strBytes p.software_version ++
    p.attrs.foldr (fun a acc => attrBytes a ++ acc) [] ++
    (match p.chainRef with
     | none => []
     | some r => strBytes r)

/-- Modelled from the spec: the content digest — a fingerprint that is a
function of the Payload bytes only. -/
def digest (p : Payload) : Nat :=
  (payloadBytes p).foldl (fun h b => (h * 131 + b + 1) % (2 ^ 64)) 5381

/-- Modelled from the spec: the human-readable textual snapshot of an
object's configuration stored as `class_repr` / `class_str`. -/
def classRepr (O : Obj) : String :=
  O.typeTag ++ "(" ++ String.intercalate ", " (O.attrs.map (fun p => p.1)) ++ ")"

/-- Modelled from the spec: per-group metadata, readable without touching
the Payload; field names follow the notebook's `list_models` output. -/
structure Metadata where
  created : Nat
  class_repr : String
  class_str : String
  digest : Nat
  pyemma_version : String
  saved_streaming_chain : Bool
deriving DecidableEq

/-- Modelled from the spec: a named group's record — metadata plus Payload. -/
structure Group where
  meta : Metadata
  payload : Payload
deriving DecidableEq

/-- Modelled from the spec: a container file is an insertion-ordered
sequence of named groups with unique names. -/
abbrev ContainerFile : Type := List (String × Group)

/-- The reserved default model name, as shown by the notebook's
`list_models` output and its conflict message. -/
def defaultModelName : String := "default"

/-- The conflict message exactly as recorded in the notebook's output; it
names the model but not the container file. -/
def conflictMessage (name : String) : String :=
  "model \"" ++ name ++
    "\" already exists. Either use overwrite=True, or use a different name/file."

/-- Modelled from the spec: assemble a group from an object's payload at
save time `t`. -/
def mkGroup (t : Nat) (O : Obj) (p : Payload) (chainFlag : Bool) : Group :=
  ⟨⟨t, classRepr O, classRepr O, digest p, PYEMMA_VERSION, chainFlag⟩, p⟩

/-- Modelled from the spec: the derived group name of the chain ancestor at
the given depth, chosen to avoid collision with the primary name. -/
def chainName (base : String) (depth : Nat) : String :=
  base ++ "_chain_" ++ toString depth

/-- Modelled from the spec: serialize an object and, recursively, its
upstream producers as additional groups under derived names, oldest
ancestor first in storage order, each Payload recording the group name of
its own upstream producer. -/
def serializeWithChain (t : Nat) (base : String) :
    Nat → Obj → Except StoreError (Payload × List (String × Group))
  | depth, .mk tag attrs prod =>
    match serializeAttrs attrs with
    | .error e => .error e
    | .ok es =>
      match prod with
      | none => .ok (⟨tag, MAX_FORMAT_VERSION, PYEMMA_VERSION, es, none⟩, [])
      | some parent =>
        match serializeWithChain t base (depth + 1) parent with
        | .error e => .error e
        | .ok (pp, gs) =>
          .ok (⟨tag, MAX_FORMAT_VERSION, PYEMMA_VERSION, es, some (chainName base depth)⟩,
            gs ++ [(chainName base depth, mkGroup t parent pp pp.chainRef.isSome)])

/-- Modelled from the spec: the save surface
`save(object, file_path, model_name="default", overwrite=False,
save_streaming_chain=False)`.  Uses the reserved default name when none is
given; fails with `ConflictError` when the name exists and overwrite is
false (the message is the one recorded in the notebook); on overwrite the
prior group is deleted and the new one recreated; with the streaming chain
the producers are stored as additional groups, oldest first. -/
def save (f : ContainerFile) (filePath : String) (O : Obj)
    (model_name : Option String) (overwrite : Bool)
    (save_streaming_chain : Bool) (t : Nat) : Except StoreError ContainerFile :=
  let name := model_name.getD defaultModelName
  if (f.lookup name).isSome && !overwrite then
    .error (.conflictError (conflictMessage name))
  else
    let base := if (f.lookup name).isSome then f.filter (fun p => p.1 != name) else f
    if save_streaming_chain then
      match serializeWithChain t name 0 O with
      | .error e => .error e
      | .ok (p, ancestors) => .ok (base ++ ancestors ++ [(name, mkGroup t O p true)])
    else
      match serializeObj MAX_FORMAT_VERSION none O with
      | .error e => .error e
      | .ok p => .ok (base ++ [(name, mkGroup t O p false)])

/-- Modelled from the spec: follow chain references to reconstruct the
ancestors, failing with `BrokenChainError` when a referenced ancestor group
is missing from the file. -/
def loadAncestors (maxVer : Nat) (f : ContainerFile) :
    Nat → String → Except StoreError Obj
  | 0, r => .error (.brokenChainError r)
  | fuel + 1, r =>
    match f.lookup r with
    | none => .error (.brokenChainError r)
    | some g =>
      match deserializePayload maxVer g.payload with
      | .error e => .error e
      | .ok core =>
        match g.payload.chainRef with
        | none => .ok core
        | some r2 =>
          match loadAncestors maxVer f fuel r2 with
          | .error e => .error e
          | .ok anc => .ok (core.withProducer (some anc))

/-- Modelled from the spec: the load surface
`load(file_path, model_name="default")` — locates the named group (failing
with `NotFoundError` naming model and file when absent), deserializes its
Payload, and reattaches the reconstructed ancestors as the `data_producer`
reference of each downstream child. -/
def load (maxVer : Nat) (f : ContainerFile) (filePath : String)
    (model_name : Option String) : Except StoreError Obj :=
  let name := model_name.getD defaultModelName
  match f.lookup name with
  | none => .error (.notFoundError name filePath)
  | some g =>
    match deserializePayload maxVer g.payload with
    | .error e => .error e
    | .ok core =>
      match g.payload.chainRef with
      | none => .ok core
      | some r =>
        match loadAncestors maxVer f f.length r with
        | .error e => .error e
        | .ok anc => .ok (core.withProducer (some anc))

/-- Modelled from the spec: list all named groups of a file with their
metadata, in insertion order, without touching Payloads. -/
def list_models (f : ContainerFile) : List (String × Metadata) :=
  f.map (fun p => (p.1, p.2.meta))

/-- Listing as an operation on the store: it returns the mapping and leaves
the file state unchanged (read-only). -/
def listModelsOp (f : ContainerFile) : List (String × Metadata) × ContainerFile :=
  (list_models f, f)

theorem lookup_append_some {f : ContainerFile} (l : ContainerFile) {n : String} {g : Group}
    (h : f.lookup n = some g) : (f ++ l).lookup n = some g := by
  induction f with
  | nil => simp [List.lookup] at h
  | cons p rest ih =>
    obtain ⟨k, v⟩ := p
    simp only [List.cons_append, List.lookup] at h ⊢
    cases hnk : (n == k) with
    | true => rw [hnk] at h; simpa using h
    | false => rw [hnk] at h; simp only at h ⊢; exact ih h

theorem lookup_append_none {f : ContainerFile} (l : ContainerFile) {n : String}
    (h : f.lookup n = none) : (f ++ l).lookup n = l.lookup n := by
  induction f with
  | nil => simp
  | cons p rest ih =>
    obtain ⟨k, v⟩ := p
    simp only [List.cons_append, List.lookup] at h ⊢
    cases hnk : (n == k) with
    | true => rw [hnk] at h; simp at h
    | false => rw [hnk] at h; simp only at h ⊢; exact ih h

/-- A save under a fresh name, whatever its other flags, only appends new
groups after the existing ones. -/
theorem save_fresh_append (f : ContainerFile) (path : String) (O : Obj)
    (name : String) (ow ch : Bool) (t : Nat) (f2 : ContainerFile)
    (hfresh : f.lookup name = none)
    (hsave : save f path O (some name) ow ch t = .ok f2) :
    ∃ rest, f2 = f ++ rest := by
  simp only [save, Option.getD_some, hfresh, Option.isSome_none, Bool.false_and,
    Bool.false_eq_true, if_false] at hsave
  cases ch with
  | true =>
    simp only [if_pos] at hsave
    cases hs : serializeWithChain t name 0 O with
    | error e => rw [hs] at hsave; exact absurd hsave (by simp)
    | ok pr =>
      rw [hs] at hsave
      obtain ⟨p, ancestors⟩ := pr
      simp only [Except.ok.injEq] at hsave
      exact ⟨ancestors ++ [(name, mkGroup t O p true)], by rw [← hsave, List.append_assoc]⟩
  | false =>
    simp only [Bool.false_eq_true, if_false] at hsave
    cases hs : serializeObj MAX_FORMAT_VERSION none O with
    | error e => rw [hs] at hsave; exact absurd hsave (by simp)
    | ok p =>
      rw [hs] at hsave
      simp only [Except.ok.injEq] at hsave
      exact ⟨[(name, mkGroup t O p false)], hsave.symm⟩

/-- A fresh-name save without the streaming chain appends exactly one group
under the requested name. -/
theorem save_fresh_no_chain (f : ContainerFile) (path : String) (O : Obj)
    (name : String) (ow : Bool) (t : Nat) (f2 : ContainerFile)
    (hfresh : f.lookup name = none)
    (hsave : save f path O (some name) ow false t = .ok f2) :
    ∃ p, serializeObj MAX_FORMAT_VERSION none O = .ok p ∧
      f2 = f ++ [(name, mkGroup t O p false)] := by
  simp only [save, Option.getD_some, hfresh, Option.isSome_none, Bool.false_and,
    Bool.false_eq_true, if_false] at hsave
  cases hs : serializeObj MAX_FORMAT_VERSION none O with
  | error e => rw [hs] at hsave; exact absurd hsave (by simp)
  | ok p =>
    rw [hs] at hsave
    simp only [Except.ok.injEq] at hsave
    exact ⟨p, rfl, hsave.symm⟩

/-- An attribute list containing an unserializable attribute always makes
the attribute walk fail with `NotSerializableError` naming an offending
attribute of the list. -/
theorem serializeAttrs_error_of_unserializable :
    ∀ (l : List (String × Attr)) (n k : String), (n, Attr.unserializable k) ∈ l →
      ∃ n2, (∃ k2, (n2, Attr.unserializable k2) ∈ l) ∧
        serializeAttrs l = .error (.notSerializableError n2) := by
  intro l
  induction l with
  | nil => intro n k h; simp at h
  | cons p rest ih =>
    intro n k h
    obtain ⟨m, a⟩ := p
    cases a with
    | unserializable kk => exact ⟨m, ⟨kk, List.mem_cons_self _ _⟩, rfl⟩
    | val v =>
      have hmem : (n, Attr.unserializable k) ∈ rest := by
        rcases List.mem_cons.mp h with h1 | h2
        · simp at h1
        · exact h2
      obtain ⟨n2, ⟨k2, hm⟩, he⟩ := ih n k hmem
      exact ⟨n2, ⟨k2, List.mem_cons_of_mem _ hm⟩, by simp only [serializeAttrs, he]⟩

/-- Claim C1: for every serializable object, deserializing the result of
serializing it yields an object with the same type tag and the same
attributes — including exact numeric array element values, dtype and
shape, which the encoding stores explicitly. -/
theorem C1_round_trip (O : Obj) (h : wfAttrsb O.attrs = true) :
    ∃ p, serializeObj MAX_FORMAT_VERSION none O = .ok p ∧
      deserializePayload MAX_FORMAT_VERSION p = .ok (Obj.mk O.typeTag O.attrs none) := by
  obtain ⟨es, hs, hd⟩ := serializeAttrs_roundtrip O.attrs h
  refine ⟨⟨O.typeTag, MAX_FORMAT_VERSION, PYEMMA_VERSION, es, none⟩, ?_, ?_⟩
  · simp only [serializeObj, hs]
  · simp only [deserializePayload]
    rw [if_neg (lt_irrefl MAX_FORMAT_VERSION)]
    simp only [hd]

/-- Claim C3: forward-only compatibility — a payload written by an older
format version (at or below the running maximum) deserializes back to the
original object, while a payload whose recorded format version exceeds the
running maximum fails with `IncompatibleVersionError` and never yields any
object, partially populated or otherwise. -/
theorem C3_forward_only_compatibility (maxVer wv : Nat) (O : Obj) (cr : Option String)
    (hw : wv ≤ maxVer) (h : wfAttrsb O.attrs = true) :
    (∃ p, serializeObj wv cr O = .ok p ∧ p.format_version = wv ∧
      deserializePayload maxVer p = .ok (Obj.mk O.typeTag O.attrs none)) ∧
    ∀ p : Payload, maxVer < p.format_version →
      deserializePayload maxVer p =
        .error (.incompatibleVersionError p.format_version maxVer) ∧
      ∀ A, deserializePayload maxVer p ≠ .ok A := by
  constructor
  · obtain ⟨es, hs, hd⟩ := serializeAttrs_roundtrip O.attrs h
    refine ⟨⟨O.typeTag, wv, PYEMMA_VERSION, es, cr⟩, ?_, rfl, ?_⟩
    · simp only [serializeObj, hs]
    · simp only [deserializePayload]
      rw [if_neg (by omega)]
      simp only [hd]
  · intro p hp
    refine ⟨by simp only [deserializePayload, if_pos hp], fun A hA => ?_⟩
    simp only [deserializePayload, if_pos hp] at hA
    exact Except.noConfusion hA

/-- Claim C9: serializing an object with an unserializable attribute (an
open file handle, a callback) fails with `NotSerializableError`, the error
message names the offending attribute, and no payload is ever produced —
the attribute's state is not silently dropped. -/
theorem C9_unserializable_rejected (O : Obj) (n k : String)
    (hmem : (n, Attr.unserializable k) ∈ O.attrs) :
    ∃ n2, (∃ k2, (n2, Attr.unserializable k2) ∈ O.attrs) ∧
      serializeObj MAX_FORMAT_VERSION none O = .error (.notSerializableError n2) ∧
      (∃ pre post, (StoreError.notSerializableError n2).message = pre ++ n2 ++ post) ∧
      ∀ p, serializeObj MAX_FORMAT_VERSION none O ≠ .ok p := by
  obtain ⟨n2, hmem2, he⟩ := serializeAttrs_error_of_unserializable O.attrs n k hmem
  refine ⟨n2, hmem2, by simp only [serializeObj, he], ?_, fun p hp => ?_⟩
  · exact ⟨"could not serialize attribute ", "", by simp [StoreError.message]⟩
  · simp only [serializeObj, he] at hp
    exact Except.noConfusion hp

instance {ε α : Type} [DecidableEq ε] [DecidableEq α] : DecidableEq (Except ε α) := by
  intro x y
  cases x with
  | error e1 =>
    cases y with
    | error e2 =>
      exact if h : e1 = e2 then .isTrue (by rw [h]) else .isFalse (by intro hc; cases hc; exact h rfl)
    | ok a2 => exact .isFalse (by intro hc; cases hc)
  | ok a1 =>
    cases y with
    | error e2 => exact .isFalse (by intro hc; cases hc)
    | ok a2 =>
      exact if h : a1 = a2 then .isTrue (by rw [h]) else .isFalse (by intro hc; cases hc; exact h rfl)

/-- Is the first character list a prefix of the second? -/
def isPrefixOfChars : List Char → List Char → Bool
  | [], _ => true
  | _ :: _, [] => false
  | a :: as, b :: bs => a == b && isPrefixOfChars as bs

/-- Does the second character list contain the first as a contiguous run? -/
def containsSub (needle : List Char) : List Char → Bool
  | [] => needle.isEmpty
  | b :: bs => isPrefixOfChars needle (b :: bs) || containsSub needle bs

/-- A configuration-only rendition of the Bayesian Markov state model the
notebook saves into my_models.h5. -/
def demoObj : Obj :=
  .mk "BayesianMSM" [("lag", .val (.prim 10)), ("nsamples", .val (.prim 100))] none

/-- The container file after the notebook's first (default-name) save. -/
def demoFile : ContainerFile :=
  match save [] "my_models.h5" demoObj none false false 5 with
  | .ok f => f
  | .error _ => []

/-- The group stored under the default name by the notebook's first save. -/
def demoGroup : Group :=
  match demoFile.lookup "default" with
  | some g => g
  | none => ⟨⟨0, "", "", 0, "", false⟩, ⟨"", 0, "", [], none⟩⟩

/-- Claim C2 (amended): saving under an existing name with overwrite false
always fails with `ConflictError`; no new file state is produced, so the
existing groups' payloads and metadata are untouched; and the error message
names the conflicting model — though not the container file. -/
theorem C2_overwrite_protection (f : ContainerFile) (path : String) (O : Obj)
    (mn : Option String) (name : String) (ch : Bool) (t : Nat) (g0 : Group)
    (hname : mn.getD defaultModelName = name)
    (h : f.lookup name = some g0) :
    save f path O mn false ch t = .error (.conflictError (conflictMessage name)) ∧
    (∀ f2, save f path O mn false ch t ≠ .ok f2) ∧
    (∃ pre post, conflictMessage name = pre ++ name ++ post) := by
  have hsave : save f path O mn false ch t =
      .error (.conflictError (conflictMessage name)) := by
    simp only [save, hname, h, Option.isSome_some, Bool.not_false, Bool.and_true, if_true]
  refine ⟨hsave, fun f2 hf2 => ?_, ?_⟩
  · rw [hsave] at hf2
    exact Except.noConfusion hf2
  · exact ⟨"model \"",
      "\" already exists. Either use overwrite=True, or use a different name/file.", rfl⟩

/-- Claim C2 is false as the spec states it: in the notebook's own run — a
second default-name save into my_models.h5 — the conflict error's message
names the model but does not contain the file's path anywhere. -/
theorem C2_overwrite_protection_counterexample :
    save demoFile "my_models.h5" demoObj none false false 7 =
      .error (.conflictError (conflictMessage "default")) ∧
    containsSub "default".toList (conflictMessage "default").toList = true ∧
    containsSub "my_models.h5".toList (conflictMessage "default").toList = false :=
  ⟨by decide, by decide, by decide⟩

/-- Claim C10: the failure raised on a name conflict without overwrite is
catchable as `RuntimeError`; its message is exactly: model "name" already
exists, followed by the suggestion to use overwrite=True or a different
name/file; it names the conflicting model, is identical whatever container
file is being written, and (for the notebook's run) does not contain the
file's path. -/
theorem C10_conflict_catchable_as_runtime_error (f : ContainerFile) (path : String)
    (O : Obj) (mn : Option String) (name : String) (ch : Bool) (t : Nat) (g0 : Group)
    (hname : mn.getD defaultModelName = name)
    (h : f.lookup name = some g0) :
    save f path O mn false ch t = .error (.conflictError (conflictMessage name)) ∧
    (StoreError.conflictError (conflictMessage name)).catchableAsRuntimeError = true ∧
    conflictMessage name = "model \"" ++ name ++
      "\" already exists. Either use overwrite=True, or use a different name/file." ∧
    (∀ path2, save f path2 O mn false ch t = save f path O mn false ch t) ∧
    containsSub "my_models.h5".toList (conflictMessage "default").toList = false := by
  refine ⟨?_, rfl, rfl, fun path2 => rfl, by decide⟩
  simp only [save, hname, h, Option.isSome_some, Bool.not_false, Bool.and_true, if_true]

/-- A fresh-name save without the chain, given a successful serialization,
appends exactly the one new group. -/
theorem save_fresh_no_chain_eq (f : ContainerFile) (path : String) (O : Obj)
    (mn : Option String) (name : String) (ow : Bool) (t : Nat) (p : Payload)
    (hname : mn.getD defaultModelName = name)
    (hfresh : f.lookup name = none)
    (hser : serializeObj MAX_FORMAT_VERSION none O = .ok p) :
    save f path O mn ow false t = .ok (f ++ [(name, mkGroup t O p false)]) := by
  simp only [save, hname, hfresh, Option.isSome_none, Bool.false_and, Bool.false_eq_true,
    if_false, hser]

/-- An object with no producer is exactly its core. -/
theorem Obj.core_eq_self {O : Obj} (h : O.data_producer = none) :
    Obj.mk O.typeTag O.attrs none = O := by
  cases O with
  | mk t a p =>
    simp only [Obj.data_producer_mk] at h
    simp only [Obj.typeTag_mk, Obj.attrs_mk, h]

/-- Claim C5: a save with no model name followed by a load with no model
name succeeds; the object is stored under the reserved default name
"default", and the load returns an object with exactly the saved type and
attributes — for an object with no upstream producer, the object itself. -/
theorem C5_default_naming (f : ContainerFile) (path : String) (O : Obj) (t : Nat)
    (hfresh : f.lookup defaultModelName = none)
    (hw : wfAttrsb O.attrs = true) :
    ∃ f2 g, save f path O none false false t = .ok f2 ∧
      f2.lookup defaultModelName = some g ∧
      load MAX_FORMAT_VERSION f2 path none = .ok (Obj.mk O.typeTag O.attrs none) ∧
      (O.data_producer = none → load MAX_FORMAT_VERSION f2 path none = .ok O) := by
  obtain ⟨es, hs, hd⟩ := serializeAttrs_roundtrip O.attrs hw
  have hser : serializeObj MAX_FORMAT_VERSION none O =
      .ok ⟨O.typeTag, MAX_FORMAT_VERSION, PYEMMA_VERSION, es, none⟩ := by
    simp only [serializeObj, hs]
  have hsave := save_fresh_no_chain_eq f path O none defaultModelName false t _ rfl hfresh hser
  have hlook : (f ++ [(defaultModelName,
      mkGroup t O ⟨O.typeTag, MAX_FORMAT_VERSION, PYEMMA_VERSION, es, none⟩ false)]).lookup
        defaultModelName =
      some (mkGroup t O ⟨O.typeTag, MAX_FORMAT_VERSION, PYEMMA_VERSION, es, none⟩ false) := by
    rw [lookup_append_none _ hfresh]
    simp [List.lookup]
  have hload : load MAX_FORMAT_VERSION
      (f ++ [(defaultModelName,
        mkGroup t O ⟨O.typeTag, MAX_FORMAT_VERSION, PYEMMA_VERSION, es, none⟩ false)]) path none =
      .ok (Obj.mk O.typeTag O.attrs none) := by
    simp only [load, Option.getD_none, hlook]
    simp only [mkGroup, deserializePayload]
    rw [if_neg (lt_irrefl MAX_FORMAT_VERSION)]
    simp only [hd]
  refine ⟨_, _, hsave, hlook, hload, fun hp => ?_⟩
  rw [hload, Obj.core_eq_self hp]

/-- Claim C6: the digest is a function of the Payload bytes only — two
independent saves of attribute-identical objects at different times produce
groups with identical digest values but different created timestamps. -/
theorem C6_digest_stability (f1 f2 : ContainerFile) (path1 path2 : String)
    (O1 O2 : Obj) (name1 name2 : String) (t1 t2 : Nat)
    (h1 : f1.lookup name1 = none) (h2 : f2.lookup name2 = none)
    (hw : wfAttrsb O1.attrs = true)
    (htag : O1.typeTag = O2.typeTag) (hattrs : O1.attrs = O2.attrs)
    (ht : t1 ≠ t2) :
    ∃ fo1 fo2 g1 g2,
      save f1 path1 O1 (some name1) false false t1 = .ok fo1 ∧
      save f2 path2 O2 (some name2) false false t2 = .ok fo2 ∧
      fo1.lookup name1 = some g1 ∧ fo2.lookup name2 = some g2 ∧
      g1.meta.digest = g2.meta.digest ∧ g1.meta.created ≠ g2.meta.created := by
  obtain ⟨es, hs, _⟩ := serializeAttrs_roundtrip O1.attrs hw
  have hser1 : serializeObj MAX_FORMAT_VERSION none O1 =
      .ok ⟨O1.typeTag, MAX_FORMAT_VERSION, PYEMMA_VERSION, es, none⟩ := by
    simp only [serializeObj, hs]
  have hser2 : serializeObj MAX_FORMAT_VERSION none O2 =
      .ok ⟨O1.typeTag, MAX_FORMAT_VERSION, PYEMMA_VERSION, es, none⟩ := by
    simp only [serializeObj, ← hattrs, hs, htag]
  have hsave1 := save_fresh_no_chain_eq f1 path1 O1 (some name1) name1 false t1 _ rfl h1 hser1
  have hsave2 := save_fresh_no_chain_eq f2 path2 O2 (some name2) name2 false t2 _ rfl h2 hser2
  refine ⟨_, _,
    mkGroup t1 O1 ⟨O1.typeTag, MAX_FORMAT_VERSION, PYEMMA_VERSION, es, none⟩ false,
    mkGroup t2 O2 ⟨O1.typeTag, MAX_FORMAT_VERSION, PYEMMA_VERSION, es, none⟩ false,
    hsave1, hsave2, ?_, ?_, rfl, ?_⟩
  · rw [lookup_append_none _ h1]
    simp [List.lookup]
  · rw [lookup_append_none _ h2]
    simp [List.lookup]
  · exact ht

/-- Claim C7: a named group, once written, is not mutated by saves under
other names — after any fresh-name save every previously present group is
still found unchanged, payload and metadata included. -/
theorem C7_frame_existing_groups (f : ContainerFile) (path : String) (O : Obj)
    (name : String) (ow ch : Bool) (t : Nat) (f2 : ContainerFile)
    (hfresh : f.lookup name = none)
    (hsave : save f path O (some name) ow ch t = .ok f2) :
    ∀ n g, f.lookup n = some g → f2.lookup n = some g := by
  obtain ⟨rest, hr⟩ := save_fresh_append f path O name ow ch t f2 hfresh hsave
  intro n g h
  rw [hr]
  exact lookup_append_some rest h

/-- Claim C8: listing is read-only and deterministic — two calls with no
intervening write return identical mappings in identical order — and the
mapping is in insertion order: its keys follow the file's group order, and
a fresh-name save appends its key at the end instead of sorting. -/
theorem C8_list_models_stable (f : ContainerFile) (path : String) (O : Obj)
    (name : String) (t : Nat) (f2 : ContainerFile)
    (hfresh : f.lookup name = none)
    (hsave : save f path O (some name) false false t = .ok f2) :
    (listModelsOp f).1 = (listModelsOp (listModelsOp f).2).1 ∧
    (listModelsOp f).2 = f ∧
    (list_models f).map Prod.fst = f.map Prod.fst ∧
    (list_models f2).map Prod.fst = f.map Prod.fst ++ [name] := by
  obtain ⟨p, hp, hf2⟩ := save_fresh_no_chain f path O name false t f2 hfresh hsave
  refine ⟨rfl, rfl, ?_, ?_⟩
  · simp [list_models]
  · rw [hf2]
    simp [list_models]

/-- Claim C4: saving an object A (produced by B, itself produced by C) with
the streaming chain and loading it back yields A with producer B and
producer's producer C; saving without the chain yields a restored A that
reports no producer; and loading fails with `BrokenChainError` whenever a
group's recorded chain reference names a group missing from the file. -/
theorem C4_chain_fidelity (ta tb tc : String) (aa ab ac : List (String × Attr))
    (ha : wfAttrsb aa = true) (hb : wfAttrsb ab = true) (hc : wfAttrsb ac = true)
    (t : Nat) (path : String) :
    (∃ f1, save [] path (Obj.mk ta aa (some (Obj.mk tb ab (some (Obj.mk tc ac none)))))
        none false true t = .ok f1 ∧
      load MAX_FORMAT_VERSION f1 path none =
        .ok (Obj.mk ta aa (some (Obj.mk tb ab (some (Obj.mk tc ac none))))) ∧
      (Obj.mk ta aa (some (Obj.mk tb ab (some (Obj.mk tc ac none))))).data_producer =
        some (Obj.mk tb ab (some (Obj.mk tc ac none))) ∧
      (Obj.mk tb ab (some (Obj.mk tc ac none))).data_producer =
        some (Obj.mk tc ac none)) ∧
    (∃ f2, save [] path (Obj.mk ta aa (some (Obj.mk tb ab (some (Obj.mk tc ac none)))))
        none false false t = .ok f2 ∧
      ∃ A2, load MAX_FORMAT_VERSION f2 path none = .ok A2 ∧ A2.data_producer = none) ∧
    (∀ (f : ContainerFile) (nm r : String) (g : Group) (core : Obj),
      f.lookup nm = some g → g.payload.chainRef = some r → f.lookup r = none →
      deserializePayload MAX_FORMAT_VERSION g.payload = .ok core →
      load MAX_FORMAT_VERSION f path (some nm) = .error (.brokenChainError r)) := by
  obtain ⟨ea, hsa, hda⟩ := serializeAttrs_roundtrip aa ha
  obtain ⟨eb, hsb, hdb⟩ := serializeAttrs_roundtrip ab hb
  obtain ⟨ec, hsc, hdc⟩ := serializeAttrs_roundtrip ac hc
  have hn0 : chainName defaultModelName 0 = "default_chain_0" := by decide
  have hn1 : chainName defaultModelName 1 = "default_chain_1" := by decide
  refine ⟨?_, ?_, ?_⟩
  · -- save with the chain, then load
    have h2 : serializeWithChain t defaultModelName 2 (Obj.mk tc ac none) =
        .ok (⟨tc, MAX_FORMAT_VERSION, PYEMMA_VERSION, ec, none⟩, []) := by
      simp only [serializeWithChain, hsc]
    have h1 : serializeWithChain t defaultModelName 1
        (Obj.mk tb ab (some (Obj.mk tc ac none))) =
        .ok (⟨tb, MAX_FORMAT_VERSION, PYEMMA_VERSION, eb, some "default_chain_1"⟩,
          [("default_chain_1",
            mkGroup t (Obj.mk tc ac none)
              ⟨tc, MAX_FORMAT_VERSION, PYEMMA_VERSION, ec, none⟩ false)]) := by
      simp only [serializeWithChain, hsb, h2, hn1, Option.isSome_none, List.nil_append]
    have h0 : serializeWithChain t defaultModelName 0
        (Obj.mk ta aa (some (Obj.mk tb ab (some (Obj.mk tc ac none))))) =
        .ok (⟨ta, MAX_FORMAT_VERSION, PYEMMA_VERSION, ea, some "default_chain_0"⟩,
          [("default_chain_1",
            mkGroup t (Obj.mk tc ac none)
              ⟨tc, MAX_FORMAT_VERSION, PYEMMA_VERSION, ec, none⟩ false),
           ("default_chain_0",
            mkGroup t (Obj.mk tb ab (some (Obj.mk tc ac none)))
              ⟨tb, MAX_FORMAT_VERSION, PYEMMA_VERSION, eb, some "default_chain_1"⟩ true)]) := by
      simp only [serializeWithChain, hsa, h1, hn0, Option.isSome_some, List.cons_append,
        List.nil_append]
    have hsave : save [] path
        (Obj.mk ta aa (some (Obj.mk tb ab (some (Obj.mk tc ac none))))) none false true t =
        .ok [("default_chain_1",
              mkGroup t (Obj.mk tc ac none)
                ⟨tc, MAX_FORMAT_VERSION, PYEMMA_VERSION, ec, none⟩ false),
             ("default_chain_0",
              mkGroup t (Obj.mk tb ab (some (Obj.mk tc ac none)))
                ⟨tb, MAX_FORMAT_VERSION, PYEMMA_VERSION, eb, some "default_chain_1"⟩ true),
             (defaultModelName,
              mkGroup t (Obj.mk ta aa (some (Obj.mk tb ab (some (Obj.mk tc ac none)))))
                ⟨ta, MAX_FORMAT_VERSION, PYEMMA_VERSION, ea, some "default_chain_0"⟩ true)] := by
      simp only [save, Option.getD_none, List.lookup, Option.isSome_none, Bool.false_and,
        Bool.false_eq_true, if_false, if_true, h0, List.nil_append, List.cons_append]
    refine ⟨_, hsave, ?_, rfl, rfl⟩
    have e1 : (defaultModelName == "default_chain_1") = false := by decide
    have e2 : (defaultModelName == "default_chain_0") = false := by decide
    have e3 : (defaultModelName == defaultModelName) = true := by decide
    have e4 : (("default_chain_0" : String) == "default_chain_1") = false := by decide
    have e5 : (("default_chain_0" : String) == "default_chain_0") = true := by decide
    have e6 : (("default_chain_1" : String) == "default_chain_1") = true := by decide
    simp only [load, Option.getD_none, List.lookup, e1, e2, e3]
    simp only [mkGroup, deserializePayload]
    rw [if_neg (lt_irrefl MAX_FORMAT_VERSION)]
    simp only [hda]
    simp only [List.length_cons, List.length_nil, loadAncestors, List.lookup, e4, e5,
      deserializePayload]
    rw [if_neg (lt_irrefl MAX_FORMAT_VERSION)]
    simp only [hdb]
    simp only [loadAncestors, List.lookup, e4, e6, deserializePayload]
    rw [if_neg (lt_irrefl MAX_FORMAT_VERSION)]
    simp only [hdc, Obj.withProducer]
  · -- save without the chain drops the producer
    have hser : serializeObj MAX_FORMAT_VERSION none
        (Obj.mk ta aa (some (Obj.mk tb ab (some (Obj.mk tc ac none))))) =
        .ok ⟨ta, MAX_FORMAT_VERSION, PYEMMA_VERSION, ea, none⟩ := by
      simp only [serializeObj, Obj.attrs_mk, Obj.typeTag_mk, hsa]
    have hsave := save_fresh_no_chain_eq []  path
      (Obj.mk ta aa (some (Obj.mk tb ab (some (Obj.mk tc ac none)))))
      none defaultModelName false t _ rfl rfl hser
    refine ⟨_, hsave, Obj.mk ta aa none, ?_, rfl⟩
    have e3 : (defaultModelName == defaultModelName) = true := by decide
    simp only [load, Option.getD_none, List.nil_append, List.lookup, e3, mkGroup,
      deserializePayload]
    rw [if_neg (lt_irrefl MAX_FORMAT_VERSION)]
    simp only [hda]
  · -- a missing referenced ancestor fails with BrokenChainError
    intro f nm r g core hg hcr hmiss hdeser
    cases f with
    | nil => simp [List.lookup] at hg
    | cons p rest =>
      simp only [load, Option.getD_some, hg, hdeser, hcr, List.length_cons, loadAncestors,
        hmiss]

/-- A concrete serializable object with primitive, string and array
attributes (float32 elements given as raw bit patterns). -/
def wObjArr : Obj :=
  .mk "TICA"
    [("lag", .val (.prim 10)),
     ("dt_traj", .val (.str "1 step")),
     ("mean", .val (.arr ⟨.float32, [2], [1065353216, 3212836864]⟩))] none

/-- The container file after the notebook's second save under "lag100". -/
def demoFile2 : ContainerFile :=
  match save demoFile "my_models.h5" demoObj (some "lag100") false false 6 with
  | .ok f => f
  | .error _ => []

/-- A concrete object holding an open file handle among its attributes. -/
def wObjBad : Obj :=
  .mk "FeatureReader"
    [("chunksize", .val (.prim 262144)),
     ("filehandle", .unserializable "open file handle")] none

/-- Attribute lists of a concrete clustering/tica/reader pipeline. -/
def wAttrsA : List (String × Attr) :=
  [("n_clusters", .val (.prim 31)),
   ("clustercenters", .val (.arr ⟨.float32, [2, 1], [15, 16]⟩))]

def wAttrsB : List (String × Attr) := [("lag", .val (.prim 10))]

def wAttrsC : List (String × Attr) := [("chunksize", .val (.prim 262144))]

theorem C1_round_trip_witness :
    wfAttrsb wObjArr.attrs = true ∧
    ∃ p, serializeObj MAX_FORMAT_VERSION none wObjArr = .ok p ∧
      deserializePayload MAX_FORMAT_VERSION p =
        .ok (Obj.mk wObjArr.typeTag wObjArr.attrs none) :=
  ⟨by decide, C1_round_trip wObjArr (by decide)⟩

theorem C2_overwrite_protection_witness :
    (Option.getD none defaultModelName = "default" ∧
     demoFile.lookup "default" = some demoGroup) ∧
    (save demoFile "my_models.h5" demoObj none false false 7 =
        .error (.conflictError (conflictMessage "default")) ∧
     (∀ f2, save demoFile "my_models.h5" demoObj none false false 7 ≠ .ok f2) ∧
     (∃ pre post, conflictMessage "default" = pre ++ "default" ++ post)) :=
  ⟨⟨rfl, by decide⟩,
    C2_overwrite_protection demoFile "my_models.h5" demoObj none "default" false 7
      demoGroup rfl (by decide)⟩

theorem C3_forward_only_compatibility_witness :
    ((0 : Nat) ≤ MAX_FORMAT_VERSION ∧ wfAttrsb wObjArr.attrs = true) ∧
    ((∃ p, serializeObj 0 none wObjArr = .ok p ∧ p.format_version = 0 ∧
        deserializePayload MAX_FORMAT_VERSION p =
          .ok (Obj.mk wObjArr.typeTag wObjArr.attrs none)) ∧
     ∀ p : Payload, MAX_FORMAT_VERSION < p.format_version →
       deserializePayload MAX_FORMAT_VERSION p =
         .error (.incompatibleVersionError p.format_version MAX_FORMAT_VERSION) ∧
       ∀ A, deserializePayload MAX_FORMAT_VERSION p ≠ .ok A) :=
  ⟨⟨by decide, by decide⟩,
    C3_forward_only_compatibility MAX_FORMAT_VERSION 0 wObjArr none (by decide) (by decide)⟩

theorem C4_chain_fidelity_witness :
    (wfAttrsb wAttrsA = true ∧ wfAttrsb wAttrsB = true ∧ wfAttrsb wAttrsC = true) ∧
    ((∃ f1, save [] "pipeline.h5"
        (Obj.mk "KmeansClustering" wAttrsA
          (some (Obj.mk "TICA" wAttrsB (some (Obj.mk "DataInMemory" wAttrsC none)))))
        none false true 3 = .ok f1 ∧
      load MAX_FORMAT_VERSION f1 "pipeline.h5" none =
        .ok (Obj.mk "KmeansClustering" wAttrsA
          (some (Obj.mk "TICA" wAttrsB (some (Obj.mk "DataInMemory" wAttrsC none))))) ∧
      (Obj.mk "KmeansClustering" wAttrsA
        (some (Obj.mk "TICA" wAttrsB
          (some (Obj.mk "DataInMemory" wAttrsC none))))).data_producer =
        some (Obj.mk "TICA" wAttrsB (some (Obj.mk "DataInMemory" wAttrsC none))) ∧
      (Obj.mk "TICA" wAttrsB (some (Obj.mk "DataInMemory" wAttrsC none))).data_producer =
        some (Obj.mk "DataInMemory" wAttrsC none)) ∧
    (∃ f2, save [] "pipeline.h5"
        (Obj.mk "KmeansClustering" wAttrsA
          (some (Obj.mk "TICA" wAttrsB (some (Obj.mk "DataInMemory" wAttrsC none)))))
        none false false 3 = .ok f2 ∧
      ∃ A2, load MAX_FORMAT_VERSION f2 "pipeline.h5" none = .ok A2 ∧
        A2.data_producer = none) ∧
    (∀ (f : ContainerFile) (nm r : String) (g : Group) (core : Obj),
      f.lookup nm = some g → g.payload.chainRef = some r → f.lookup r = none →
      deserializePayload MAX_FORMAT_VERSION g.payload = .ok core →
      load MAX_FORMAT_VERSION f "pipeline.h5" (some nm) =
        .error (.brokenChainError r))) :=
  ⟨⟨by decide, by decide, by decide⟩,
    C4_chain_fidelity "KmeansClustering" "TICA" "DataInMemory" wAttrsA wAttrsB wAttrsC
      (by decide) (by decide) (by decide) 3 "pipeline.h5"⟩

theorem C5_default_naming_witness :
    (([] : ContainerFile).lookup defaultModelName = none ∧
     wfAttrsb wObjArr.attrs = true) ∧
    (∃ f2 g, save [] "my_models.h5" wObjArr none false false 11 = .ok f2 ∧
      f2.lookup defaultModelName = some g ∧
      load MAX_FORMAT_VERSION f2 "my_models.h5" none =
        .ok (Obj.mk wObjArr.typeTag wObjArr.attrs none) ∧
      (wObjArr.data_producer = none →
        load MAX_FORMAT_VERSION f2 "my_models.h5" none = .ok wObjArr)) :=
  ⟨⟨rfl, by decide⟩,
    C5_default_naming [] "my_models.h5" wObjArr 11 rfl (by decide)⟩

theorem C6_digest_stability_witness :
    (([] : ContainerFile).lookup "default" = none ∧
     wfAttrsb demoObj.attrs = true ∧
     demoObj.typeTag = demoObj.typeTag ∧ demoObj.attrs = demoObj.attrs ∧ (1 : Nat) ≠ 2) ∧
    (∃ fo1 fo2 g1 g2,
      save [] "my_models.h5" demoObj (some "default") false false 1 = .ok fo1 ∧
      save [] "other.h5" demoObj (some "default") false false 2 = .ok fo2 ∧
      fo1.lookup "default" = some g1 ∧ fo2.lookup "default" = some g2 ∧
      g1.meta.digest = g2.meta.digest ∧ g1.meta.created ≠ g2.meta.created) :=
  ⟨⟨rfl, by decide, rfl, rfl, by decide⟩,
    C6_digest_stability [] [] "my_models.h5" "other.h5" demoObj demoObj "default" "default"
      1 2 rfl rfl (by decide) rfl rfl (by decide)⟩

theorem C7_frame_existing_groups_witness :
    (demoFile.lookup "lag100" = none ∧
     save demoFile "my_models.h5" demoObj (some "lag100") false false 6 = .ok demoFile2) ∧
    (∀ n g, demoFile.lookup n = some g → demoFile2.lookup n = some g) :=
  ⟨⟨by decide, by decide⟩,
    C7_frame_existing_groups demoFile "my_models.h5" demoObj "lag100" false false 6
      demoFile2 (by decide) (by decide)⟩

theorem C8_list_models_stable_witness :
    (demoFile.lookup "lag100" = none ∧
     save demoFile "my_models.h5" demoObj (some "lag100") false false 6 = .ok demoFile2) ∧
    ((listModelsOp demoFile).1 = (listModelsOp (listModelsOp demoFile).2).1 ∧
     (listModelsOp demoFile).2 = demoFile ∧
     (list_models demoFile).map Prod.fst = demoFile.map Prod.fst ∧
     (list_models demoFile2).map Prod.fst = demoFile.map Prod.fst ++ ["lag100"]) :=
  ⟨⟨by decide, by decide⟩,
    C8_list_models_stable demoFile "my_models.h5" demoObj "lag100" 6 demoFile2
      (by decide) (by decide)⟩

theorem C9_unserializable_rejected_witness :
    (("filehandle", Attr.unserializable "open file handle") ∈ wObjBad.attrs) ∧
    (∃ n2, (∃ k2, (n2, Attr.unserializable k2) ∈ wObjBad.attrs) ∧
      serializeObj MAX_FORMAT_VERSION none wObjBad =
        .error (.notSerializableError n2) ∧
      (∃ pre post, (StoreError.notSerializableError n2).message = pre ++ n2 ++ post) ∧
      ∀ p, serializeObj MAX_FORMAT_VERSION none wObjBad ≠ .ok p) :=
  ⟨by decide,
    C9_unserializable_rejected wObjBad "filehandle" "open file handle" (by decide)⟩

theorem C10_conflict_catchable_as_runtime_error_witness :
    (Option.getD none defaultModelName = "default" ∧
     demoFile.lookup "default" = some demoGroup) ∧
    (save demoFile "my_models.h5" demoObj none false false 9 =
        .error (.conflictError (conflictMessage "default")) ∧
     (StoreError.conflictError (conflictMessage "default")).catchableAsRuntimeError = true ∧
     conflictMessage "default" = "model \"" ++ "default" ++
       "\" already exists. Either use overwrite=True, or use a different name/file." ∧
     (∀ path2, save demoFile path2 demoObj none false false 9 =
        save demoFile "my_models.h5" demoObj none false false 9) ∧
     containsSub "my_models.h5".toList (conflictMessage "default").toList = false) :=
  ⟨⟨rfl, by decide⟩,
    C10_conflict_catchable_as_runtime_error demoFile "my_models.h5" demoObj none "default"
      false 9 demoGroup rfl (by decide)⟩

end PyemmaStorage
